import Mathlib

/-!
Verification of the offline-resilient sensor-data synchronization engine of the
iot-monorepo repository: the data-normalization function `normalizeReadings`
(iot-pwa App.js v7), the tiered cache resolver composed of the service-worker
API route handler (service-worker.js v7/v9) and the App-level `readCachedData`
fallback chain, the service-worker install and activate (version-rotation)
handlers, and the polling/session loop `fetchData` of the v7 App.

Modelling conventions, stated once here and referenced below:
* JavaScript date handling is host behavior.  A raw `timestamp` value is
  modelled by `TSField`, which records exactly the information the code
  observes: its JS truthiness and the time value `new Date(v)` yields
  (`none` for an Invalid Date).  A string field is represented by its parse
  result; `TSField.strCanon t` is the canonical ISO-8601 string that
  `Date.prototype.toISOString` produces for instant `t` — per the ECMAScript
  specification that string is nonempty (truthy) and `Date.parse` maps it
  back to `t`.  Instants are integer epoch milliseconds.
* A normalized reading stores its timestamp as the instant `t : Int`
  denoted by the canonical ISO string `toISOString` produced; the
  string↔instant correspondence is a bijection on valid instants.
* JS numbers are modelled by `ℚ` with an explicit `NaN` case where the code
  can observe one: `Number(x)` of a non-numeric string is NaN, which is
  `!== null` and therefore survives the normalization filter, but
  `JSON.stringify` serializes NaN as `null`.
* Cache payloads are modelled as already-parsed JSON arrays of reading
  objects (`List RawReading`); the top-level interface `normalizeReadings`
  additionally covers non-array JSON values and `null`/`undefined` array
  elements (`RawElem.jsnull`), on which the source code throws a TypeError
  when it reads `r.timestamp` — modelled as `Except.error`.
-/

/-- Raw JSON value found in the `timestamp` field of a reading object, as the
code observes it: `new Date(v)` yields `some t` (a valid time value, integer
epoch ms) or `none` (Invalid Date), and the value is JS-truthy or not.
`strCanon t` is the canonical ISO string `toISOString` produces for `t`;
`strOther t` any other nonempty string parsing to `t`; `strBad` a nonempty
string that does not parse; `strEmpty` the empty string (falsy). -/
inductive TSField where
  | undef
  | nullv
  | num (n : Int)
  | strCanon (t : Int)
  | strOther (t : Int)
  | strBad
  | strEmpty
  | boolv (b : Bool)
  deriving DecidableEq, Repr

/-- Raw JSON value found in the `temperature` or `humidity` field:
`undef`/`nullv` satisfy `x == null`; `num q` is a finite number, `nan` the
number NaN; `strNum q` a string `Number` coerces to the finite `q`, `strNaN`
a string `Number` coerces to NaN. -/
inductive NumField where
  | undef
  | nullv
  | num (q : ℚ)
  | nan
  | strNum (q : ℚ)
  | strNaN
  deriving DecidableEq, Repr

/-- One raw reading object, the element shape `normalizeReadings` maps over.
A missing field is `undef`. -/
structure RawReading where
  timestamp : TSField
  temperature : NumField
  humidity : NumField
  deriving DecidableEq, Repr

/-- One element of a raw JSON array: either `null`/`undefined` (reading a
property of it throws) or a reading object (any other JS value: property
access succeeds, absent properties are `undef`). -/
inductive RawElem where
  | jsnull
  | obj (r : RawReading)
  deriving DecidableEq, Repr

/-- A top-level JSON value passed to `normalizeReadings`: an array of
elements, or any non-array value.  The code tests `Array.isArray(arr)` and
returns `[]` without inspecting a non-array further, so all non-array values
are observationally identical and collapsed into `notArr`. -/
inductive JInput where
  | notArr
  | arr (es : List RawElem)
  deriving DecidableEq, Repr

/-- A normalized reading as produced by `normalizeReadings`: `timestamp` is
the instant denoted by the canonical ISO string `toISOString` produced;
`temperature`/`humidity` are JS numbers with `none` standing for NaN (which
passes the `!== null` filter). -/
structure Reading where
  timestamp : Int
  temperature : Option ℚ
  humidity : Option ℚ
  deriving DecidableEq, Repr

/-- JS truthiness of a raw timestamp value, as tested by
`r.timestamp ? new Date(r.timestamp) : null`: `null`, `undefined`, `0`,
`""`, `false` (and NaN, covered by `strBad` only as a string) are falsy. -/
def tsTruthy : TSField → Bool
  | .undef => false
  | .nullv => false
  | .num n => n != 0
  | .strCanon _ => true
  | .strOther _ => true
  | .strBad => true
  | .strEmpty => false
  | .boolv b => b

/-- Time value of `new Date(v)` for a raw timestamp value; `none` models an
Invalid Date (`Number.isNaN(ts.getTime())`).  Numbers are valid time values
iff they lie within the ECMAScript range of ±8.64e15 ms; `null` coerces to
0 and booleans to 0/1. -/
def tsInstant : TSField → Option Int
  | .undef => none
  | .nullv => some 0
  | .num n => if n ≤ 8640000000000000 ∧ -8640000000000000 ≤ n then some n else none
  | .strCanon t => some t
  | .strOther t => some t
  | .strBad => none
  | .strEmpty => none
  | .boolv b => some (if b then 1 else 0)

/-- The mapped timestamp of one reading, mirroring
`const ts = r.timestamp ? new Date(r.timestamp) : null;` followed by
`ts && !Number.isNaN(ts.getTime()) ? ts.toISOString() : null`: `some t`
is the canonical ISO string for `t`, `none` is JS `null`. -/
def mapTS (f : TSField) : Option Int :=
  if tsTruthy f then tsInstant f else none

/-- The mapped temperature/humidity of one reading, mirroring
`r.temperature == null ? null : Number(r.temperature)`: outer `none` is JS
`null`, `some none` is NaN, `some (some q)` the finite number `q`. -/
def jsNum : NumField → Option (Option ℚ)
  | .undef => none
  | .nullv => none
  | .num q => some (some q)
  | .nan => some none
  | .strNum q => some (some q)
  | .strNaN => some none

/-- Map-and-filter of a single reading object: the `.map` body of
`normalizeReadings` followed by its `.filter` predicate
`r.timestamp && r.temperature !== null && r.humidity !== null`
(the mapped timestamp is a nonempty ISO string or `null`, so its truthiness
coincides with being non-null). -/
def normElem (r : RawReading) : Option Reading :=
  match mapTS r.timestamp, jsNum r.temperature, jsNum r.humidity with
  | some t, some a, some b => some ⟨t, a, b⟩
  | _, _, _ => none

/-- Normalization of a parsed JSON array of reading objects (no
`null`/`undefined` elements): keeps exactly the elements `normElem` accepts. -/
def normPayload (l : List RawReading) : List Reading :=
  l.filterMap normElem

/-- Element-by-element processing of a raw array by `normalizeReadings`:
a `null`/`undefined` element makes the `.map` callback throw a TypeError on
`r.timestamp` (modelled as `Except.error ()`); otherwise the map-and-filter
result of `normPayload`. -/
def normElems : List RawElem → Except Unit (List Reading)
  | [] => .ok []
  | .jsnull :: _ => .error ()
  | .obj r :: rest =>
    match normElems rest with
    | .error e => .error e
    | .ok tail =>
      .ok (match normElem r with
           | some x => x :: tail
           | none => tail)

/-- The public normalization entry point `normalizeReadings` of App.js (v7):
`if (!Array.isArray(arr)) return [];` then map-and-filter, which throws on a
`null`/`undefined` array element. -/
def normalizeReadings : JInput → Except Unit (List Reading)
  | .notArr => .ok []
  | .arr es => normElems es

/-- The keep-condition of the `.filter` line of `normalizeReadings`, stated
on the raw object: the mapped timestamp is non-null (raw timestamp truthy
and a valid date) and the mapped temperature and humidity are non-null. -/
def codeKeep (r : RawReading) : Bool :=
  (mapTS r.timestamp).isSome && (jsNum r.temperature).isSome
    && (jsNum r.humidity).isSome

/-- Validity of a raw reading following the spec's words (§3): all three
fields are non-null and the timestamp parses to a valid instant.  This
definition follows the specification, not the code, and exists to compare
the two. -/
def specValid (r : RawReading) : Bool :=
  (match r.timestamp with
   | .undef => false
   | .nullv => false
   | _ => true)
  && (tsInstant r.timestamp).isSome
  && (match r.temperature with
      | .undef => false
      | .nullv => false
      | _ => true)
  && (match r.humidity with
      | .undef => false
      | .nullv => false
      | _ => true)

/-- JSON serialization round trip (`JSON.parse` of `JSON.stringify`) of a
normalized reading, as performed by the write-through to `localStorage` and
to the cache: the canonical ISO timestamp string is kept verbatim, finite
numbers are kept, and NaN serializes to `null`. -/
def rawOfReading (r : Reading) : RawReading :=
  ⟨.strCanon r.timestamp,
   match r.temperature with
   | some q => .num q
   | none => .nullv,
   match r.humidity with
   | some q => .num q
   | none => .nullv⟩

/-- Serialization of a whole normalized reading set, as written through to
`localStorage` (`JSON.stringify(normalized)`) and to the cache
(`new Response(JSON.stringify(normalized))`). -/
def rawOfReadings (d : List Reading) : List RawReading :=
  d.map rawOfReading

/-- Substring test on character lists: `isPrefixL sub xs` holds when `sub`
is an initial segment of `xs`. -/
def isPrefixL : List Char → List Char → Bool
  | [], _ => true
  | _ :: _, [] => false
  | a :: as, b :: bs => a == b && isPrefixL as bs

/-- Substring test on character lists: `isInfixL sub xs` holds when `sub`
occurs contiguously inside `xs`. -/
def isInfixL (sub : List Char) : List Char → Bool
  | [] => isPrefixL sub []
  | c :: rest => isPrefixL sub (c :: rest) || isInfixL sub rest

/-- Model of JavaScript `s.includes(sub)`. -/
def strContains (s sub : String) : Bool :=
  isInfixL sub.data s.data

/-- A sensor cache: an association of URL-shaped string keys to parsed JSON
array payloads, modelling one named Cache of the Cache Storage API. -/
abbrev SensorCache := List (String × List RawReading)

/-- Model of `cache.match(key)` by exact URL string. -/
def lookupC (c : SensorCache) (key : String) : Option (List RawReading) :=
  match c.find? (fun e => e.1 == key) with
  | some e => some e.2
  | none => none

/-- Model of `cache.put(key, payload)`: idempotent overwrite of the entry
stored under `key`. -/
def putEntry (key : String) (p : List RawReading) (c : SensorCache) : SensorCache :=
  (key, p) :: c.eraseP (fun e => e.1 == key)

/-- The fuzzy key search shared by the service worker and `readCachedData`:
`keys.find((req) => req.url.includes(sub))` — the first stored entry whose
key contains the logical-resource substring. -/
def matchFuzzy (sub : String) (c : SensorCache) : Option (String × List RawReading) :=
  c.find? (fun e => strContains e.1 sub)

/-- The primary resource key: the backend base URL and the logical API path
`/api/data/`, the string literal the service worker uses and the value of
`${REACT_APP_BACKEND_URL}${API_PATH}` in the v7 App. -/
def apiUrl : String := "https://django-iot-backend.onrender.com/api/data/"

/-- The logical-resource substring searched by the fuzzy tier. -/
def API_PATH : String := "/api/data/"

/-- Shared client-side storage state: the sensor-data cache of the active
version, plus the secondary durable fallback `localStorage["cachedSensorData"]`
(a parsed JSON array when present). -/
structure SysState where
  cache : SensorCache
  localStore : Option (List RawReading)
  deriving DecidableEq, Repr

/-- Which cache tier of `readCachedData` produced a result.  The source
reports `exact` and `fuzzy` under the single label `"cache"` and `localT`
as `"localStorage"`; the branch taken is tracked here. -/
inductive CacheSrc where
  | exact
  | fuzzy
  | localT
  deriving DecidableEq, Repr

/-- The App-level `readCachedData` fallback chain (v7 App.js): exact
`cache.match(apiUrl)` with `apiUrl = key`; if absent, the first fuzzy key
containing `/api/data/`; if neither is present, `localStorage`; else `null`.
Whichever tier yields a response has `normalizeReadings` applied to its body.
A present cache entry short-circuits the chain even when its payload
normalizes to the empty set. -/
def readCachedData (key : String) (st : SysState) : Option (CacheSrc × List Reading) :=
  match lookupC st.cache key with
  | some p => some (.exact, normPayload p)
  | none =>
    match matchFuzzy API_PATH st.cache with
    | some e => some (.fuzzy, normPayload e.2)
    | none =>
      match st.localStore with
      | some p => some (.localT, normPayload p)
      | none => none

/-- Provenance of a resolved result: which fallback tier produced it, or
`noData` when a chain ran out of tiers without producing anything. -/
inductive Provenance where
  | live
  | cacheExact
  | cacheFuzzy
  | localFallback
  | synthetic
  | noData
  deriving DecidableEq, Repr

/-- Provenance of a result produced by the cache chain. -/
def provOfSrc : CacheSrc → Provenance
  | .exact => .cacheExact
  | .fuzzy => .cacheFuzzy
  | .localT => .localFallback

/-- The write-through performed after a successful live fetch (v7 App.js):
`localStorage.setItem("cachedSensorData", JSON.stringify(normalized))` and
`cache.put(apiUrl, new Response(JSON.stringify(normalized)))` under the same
resource key. -/
def writeThrough (key : String) (d : List Reading) (st : SysState) : SysState :=
  ⟨putEntry key (rawOfReadings d) st.cache, some (rawOfReadings d)⟩

/-- The synthetic last-resort body of the service-worker API route handler
(v7): the JSON array of one reading at the current instant with temperature
21.0 and humidity 44.0, returned as the handler's fallback `Response`. -/
def synthPayload (now : Int) : List RawReading :=
  [⟨.strCanon now, .num 21, .num 44⟩]

/-- The result of the service-worker API route handler: which branch
answered, the raw JSON array body of the returned `Response`, and the
sensor cache after the handler's own best-effort write-through. -/
structure SWResult where
  prov : Provenance
  body : List RawReading
  cache : SensorCache
  deriving DecidableEq, Repr

/-- The service-worker API route handler for `/api/data/` (v7/v9): try the
network first and on an ok response `put` the raw body under the request
URL and return it; otherwise return the exact-URL cache entry if present;
otherwise the first entry whose key contains `/api/data/`; otherwise the
synthetic single-point body.  The handler serves raw bodies (it never
normalizes) and has no durable-fallback tier: a service worker cannot read
`localStorage`, so its synthetic branch follows its fuzzy miss directly. -/
def swHandle (net : Option (List RawReading)) (c : SensorCache)
    (key : String) (now : Int) : SWResult :=
  match net with
  | some raw => ⟨.live, raw, putEntry key raw c⟩
  | none =>
    match lookupC c key with
    | some p => ⟨.cacheExact, p, c⟩
    | none =>
      match matchFuzzy API_PATH c with
      | some e => ⟨.cacheFuzzy, e.2, c⟩
      | none => ⟨.synthetic, synthPayload now, c⟩

/-- The result of one resolution: provenance, published reading set, and
the storage state after any write-through. -/
structure Resolved where
  prov : Provenance
  data : List Reading
  st : SysState
  deriving DecidableEq, Repr

/-- The App-level resolution of one data request (v7 App.js `fetchData`
data path).  `net = some raw` models a completed live request with HTTP ok
status and JSON array body `raw`: the body is normalized, written through
to `localStorage` and the cache, and published with provenance `live`.
`net = none` models any completed failure (connection error, non-2xx):
the `readCachedData` chain answers, and when even it yields nothing the
App publishes no data (`noData`, empty set — the caller surfaces an error
message; the App chain has no synthetic tier). -/
def resolve (net : Option (List RawReading)) (key : String) (st : SysState)
    (_now : Int) : Resolved :=
  match net with
  | some raw =>
    let d := normPayload raw
    ⟨.live, d, writeThrough key d st⟩
  | none =>
    match readCachedData key st with
    | some (src, d) => ⟨provOfSrc src, d, st⟩
    | none => ⟨.noData, [], st⟩

/-- Completion behavior of the live fetch.  The source awaits
`fetch(request)` with no timeout and no AbortController, so a request that
never settles never produces a response: `hangs` yields no resolution at
all, while `completes r` feeds the settled outcome to `resolve`. -/
inductive NetBehavior where
  | hangs
  | completes (r : Option (List RawReading))
  deriving DecidableEq, Repr

/-- Resolution as a function of the fetch's completion behavior: the
handler blocks (produces nothing) while the fetch is pending, since no
timeout bounds it. -/
def resolveNet (b : NetBehavior) (key : String) (st : SysState)
    (now : Int) : Option Resolved :=
  match b with
  | .hangs => none
  | .completes r => some (resolve r key st now)

/-- The install-phase fallback payload of the v7 service worker: a
seven-point synthetic series ending five minutes before `now`, written when
the best-effort install fetch fails. -/
def fallbackPayload (now : Int) : List RawReading :=
  [⟨.strCanon (now - 11 * 60 * 1000), .num (43/2), .num 45⟩,
   ⟨.strCanon (now - 10 * 60 * 1000), .num (217/10), .num 44⟩,
   ⟨.strCanon (now - 9 * 60 * 1000), .num (108/5), .num (89/2)⟩,
   ⟨.strCanon (now - 8 * 60 * 1000), .num (109/5), .num 44⟩,
   ⟨.strCanon (now - 7 * 60 * 1000), .num 22, .num (87/2)⟩,
   ⟨.strCanon (now - 6 * 60 * 1000), .num (223/10), .num 43⟩,
   ⟨.strCanon (now - 5 * 60 * 1000), .num (221/10), .num (216/5)⟩]

/-- The v7/v9 service-worker install handler's effect on the sensor-data
cache: if an entry already exists under the primary resource key it is kept
and nothing else happens; otherwise one best-effort fetch is attempted
(`net` is its settled outcome), and on success the live body is `put` under
the key, on failure the synthetic `fallbackPayload` is `put` instead. -/
def installSensorCache (net : Option (List RawReading)) (now : Int)
    (c : SensorCache) : SensorCache :=
  match lookupC c apiUrl with
  | some _ => c
  | none =>
    match net with
    | some p => putEntry apiUrl p c
    | none => putEntry apiUrl (fallbackPayload now) c

/-- The three version-tagged store names of service-worker version `v`:
`sensor-data-cache-<v>`, `static-assets-<v>`, `images-<v>`. -/
def cacheNames (v : String) : List String :=
  ["sensor-data-cache-" ++ v, "static-assets-" ++ v, "images-" ++ v]

/-- The whole Cache Storage: named stores, each a sensor cache. -/
abbrev Registry := List (String × SensorCache)

/-- The activate-phase cleanup (v7/v9 service worker): every store whose
name is not among the active version's three names is deleted
(`keys.filter(k => !names.includes(k)).map(k => caches.delete(k))`). -/
def rotate (v : String) (reg : Registry) : Registry :=
  reg.filter (fun s => (cacheNames v).contains s.1)

/-- Lookup of a key inside a named store of the registry; `none` is
`NotFound` (a missing store opens empty, so its every lookup misses). -/
def getReg (reg : Registry) (store key : String) : Option (List RawReading) :=
  match reg.find? (fun s => s.1 == store) with
  | some s => lookupC s.2 key
  | none => none

/-- Foreground poller state of the v7 App: the in-memory session token
`jwtRef`, the published reading set, the cached-provenance flag, and the
displayed error. -/
structure PollState where
  jwt : Option String
  data : List Reading
  cached : Bool
  err : Option String
  deriving DecidableEq, Repr

/-- Settled outcome of the login exchange: `ok t` is an HTTP-ok response
yielding token `t`; `rejected` a non-ok response. -/
inductive LoginR where
  | ok (t : String)
  | rejected
  deriving DecidableEq, Repr

/-- Settled outcome of the authenticated data fetch: `ok p` an HTTP-ok
response with JSON array body `p`; `notOk` a non-ok response (e.g. 401);
`threw` a rejected fetch promise (network error). -/
inductive FetchR where
  | ok (p : List RawReading)
  | notOk
  | threw
  deriving DecidableEq, Repr

/-- Observables of one online poll cycle: the poller state and storage
after the cycle, whether a login exchange was attempted, and which token
the data fetch used (`none` when no data fetch was reached). -/
structure CycleOut where
  ps : PollState
  st : SysState
  loginAttempted : Bool
  usedToken : Option String
  deriving DecidableEq, Repr

/-- The cache-fallback publication shared by the three failure branches of
`fetchData` (login rejected, data fetch non-ok, fetch threw): read the
cache chain; when it yields a nonempty set, publish it as cached data and
clear the error; otherwise set the branch's error message, clearing the
published data only in the catch branch (`clear = true`). -/
def fallbackPub (msg : String) (clear : Bool) (st : SysState)
    (ps : PollState) : PollState :=
  match readCachedData apiUrl st with
  | some (_, d) =>
    if d = [] then
      if clear then ⟨ps.jwt, [], false, some msg⟩ else { ps with err := some msg }
    else ⟨ps.jwt, d, true, none⟩
  | none =>
    if clear then ⟨ps.jwt, [], false, some msg⟩ else { ps with err := some msg }

/-- The authenticated data-fetch phase of one online poll cycle, entered
with token `t` held: on an ok response, normalize, publish live and write
through to `localStorage` and the cache; on a non-ok response or a thrown
fetch, fall back to the cache chain.  The token is left untouched in every
branch. -/
def dataPhase (t : String) (fr : FetchR) (st : SysState) (ps : PollState)
    (attempted : Bool) : CycleOut :=
  match fr with
  | .ok p =>
    let d := normPayload p
    ⟨⟨ps.jwt, d, false, none⟩, writeThrough apiUrl d st, attempted, some t⟩
  | .notOk =>
    ⟨fallbackPub "Failed to fetch sensor data" false st ps, st, attempted, some t⟩
  | .threw =>
    ⟨fallbackPub "Unexpected error" true st ps, st, attempted, some t⟩

/-- One online poll cycle of the v7 App's `fetchData` (the
`navigator.onLine` branch): login is attempted only when no token is held
(`if (!jwtRef.current)`); a rejected login falls back to the cache chain
and publishes cached data when nonempty, else surfaces "Login failed"; an
ok login stores the token and proceeds to the data fetch, as does a held
token directly. -/
def fetchDataOnline (login : LoginR) (fr : FetchR) (st : SysState)
    (ps : PollState) : CycleOut :=
  match ps.jwt with
  | none =>
    match login with
    | .rejected => ⟨fallbackPub "Login failed" false st ps, st, true, none⟩
    | .ok t => dataPhase t fr st { ps with jwt := some t } true
  | some t => dataPhase t fr st ps false

/-- An element survives normalization exactly when the filter line's
condition holds of its mapped fields. -/
theorem normElem_isSome_eq (r : RawReading) : (normElem r).isSome = codeKeep r := by
  unfold normElem codeKeep
  cases mapTS r.timestamp <;> cases jsNum r.temperature <;> cases jsNum r.humidity <;> rfl

/-- On an array of reading objects, `normalizeReadings` succeeds and
returns the map-and-filter of its elements. -/
theorem normElems_map_obj (xs : List RawReading) :
    normElems (xs.map .obj) = .ok (xs.filterMap normElem) := by
  induction xs with
  | nil => rfl
  | cons r rest ih =>
    simp only [List.map_cons, normElems, ih, List.filterMap_cons]
    cases normElem r <;> rfl

/-- The number of survivors of normalization is the count of elements
satisfying the filter condition. -/
theorem length_normPayload (xs : List RawReading) :
    (xs.filterMap normElem).length = xs.countP codeKeep := by
  induction xs with
  | nil => rfl
  | cons r rest ih =>
    rw [List.filterMap_cons, List.countP_cons]
    rcases h : normElem r with _ | v
    · have hk : codeKeep r = false := by rw [← normElem_isSome_eq, h]; rfl
      simp [hk, ih]
    · have hk : codeKeep r = true := by rw [← normElem_isSome_eq, h]; rfl
      simp [hk, ih]

/-- A normalized reading with finite (non-NaN) temperature and humidity is
left unchanged by a JSON serialization round trip followed by
re-normalization. -/
theorem normElem_rawOfReading (r : Reading) (ht : r.temperature.isSome)
    (hh : r.humidity.isSome) : normElem (rawOfReading r) = some r := by
  rcases r with ⟨t, a, b⟩
  rcases a with _ | a
  · simp at ht
  rcases b with _ | b
  · simp at hh
  rfl

/-- A normalized reading set whose members all have finite temperature and
humidity is a fixed point of serialize-then-renormalize. -/
theorem normPayload_rawOfReadings (d : List Reading)
    (h : ∀ r ∈ d, r.temperature.isSome ∧ r.humidity.isSome) :
    normPayload (rawOfReadings d) = d := by
  induction d with
  | nil => rfl
  | cons r rest ih =>
    have hr := h r (List.mem_cons_self r rest)
    have hrest := ih (fun x hx => h x (List.mem_cons_of_mem r hx))
    simp only [rawOfReadings, normPayload, List.map_cons, List.filterMap_cons,
      normElem_rawOfReading r hr.1 hr.2]
    simpa [rawOfReadings, normPayload] using hrest

/-- A freshly `put` entry is found by an exact lookup of its key. -/
theorem lookupC_putEntry_self (key : String) (p : List RawReading)
    (c : SensorCache) : lookupC (putEntry key p c) key = some p := by
  simp [lookupC, putEntry, List.find?]

/-- The cache-fallback publication never touches the session token. -/
theorem fallbackPub_jwt (msg : String) (clear : Bool) (st : SysState)
    (ps : PollState) : (fallbackPub msg clear st ps).jwt = ps.jwt := by
  unfold fallbackPub
  rcases readCachedData apiUrl st with _ | ⟨src, d⟩
  · cases clear <;> rfl
  · by_cases hd : d = [] <;> cases clear <;> simp [hd]

/-- C2 (counterexample): the claim "normalization keeps exactly those
entries whose timestamp parses to a valid instant and whose temperature and
humidity are both non-null" fails at the concrete input
`[{timestamp: 0, temperature: 21.5, humidity: 44}]`: the numeric timestamp
0 parses to the valid instant 1970-01-01T00:00:00Z and both numbers are
non-null (1 spec-valid entry), yet the code's truthiness test
`r.timestamp ?` rejects the falsy number 0 and normalization returns 0
entries. -/
theorem C2_cex_epoch_zero_dropped :
    ([⟨.num 0, .num (43/2), .num 44⟩] : List RawReading).countP specValid = 1
    ∧ normalizeReadings (.arr (([⟨.num 0, .num (43/2), .num 44⟩] :
        List RawReading).map .obj)) = .ok [] := by
  constructor
  · rfl
  · rfl

/-- C2 (amended): for every input array of raw reading objects,
normalization keeps exactly those entries whose timestamp is JS-truthy
(in particular nonzero and nonempty) and parses to a valid instant and
whose temperature and humidity are both non-null, and drops every other
entry: an input of size N containing k such entries normalizes to exactly
k entries, each with a canonical ISO timestamp and a JS-number temperature
and humidity. -/
theorem C2_normalize_keeps_truthy_valid (xs : List RawReading) :
    normalizeReadings (.arr (xs.map .obj)) = .ok (xs.filterMap normElem)
    ∧ (xs.filterMap normElem).length = xs.countP codeKeep := by
  exact ⟨normElems_map_obj xs, length_normPayload xs⟩

/-- C10 (counterexample): the claim "for every array input normalizeReadings
returns an array" fails at the concrete input `[null]`: the `.map` callback
reads `r.timestamp` of the `null` element and throws a TypeError instead of
returning an array. -/
theorem C10_cex_null_element_throws :
    normalizeReadings (.arr [.jsnull]) = .error () := rfl

/-- C10 (amended): normalization is total over every non-array JSON input
(object, string, number, null), returning the empty reading set rather than
raising, and over every array input whose elements are not `null` or
`undefined` it returns an array; an array containing a `null`/`undefined`
element makes it throw a TypeError. -/
theorem C10_normalize_total_without_null_elems :
    normalizeReadings .notArr = .ok []
    ∧ ∀ es : List RawElem, (∀ e ∈ es, e ≠ .jsnull) →
        ∃ l, normalizeReadings (.arr es) = .ok l := by
  refine ⟨rfl, fun es h => ?_⟩
  induction es with
  | nil => exact ⟨[], rfl⟩
  | cons e rest ih =>
    rcases ih (fun x hx => h x (List.mem_cons_of_mem e hx)) with ⟨l, hl⟩
    rcases e with _ | r
    · exact absurd rfl (h .jsnull (List.mem_cons_self _ _))
    · refine ⟨(match normElem r with | some x => x :: l | none => l), ?_⟩
      simp only [normalizeReadings] at hl ⊢
      simp only [normElems, hl]

/-- C10 (witness): the amended totality theorem applied at a concrete
array whose single element is a reading object. -/
theorem C10_witness :
    ∃ l, normalizeReadings (.arr [.obj ⟨.strCanon 0, .num 1, .num 2⟩]) = .ok l :=
  C10_normalize_total_without_null_elems.2 _ (by decide)

/-- C1 (counterexample): the claimed five-tier order — secondary durable
fallback before synthetic, synthetic only after every storage tier misses —
exists in no execution.  At the concrete state with an empty sensor cache,
the durable store holding one valid reading, and the network failing: the
service-worker route handler (the only code path with a synthetic tier)
serves its synthetic payload straight after its fuzzy miss — it has no
durable tier, a service worker cannot read `localStorage` — so the
published body is the synthetic payload and not the durable content the
claim requires; while the App chain `readCachedData`, which does own the
durable tier, has no synthetic tier at all: on a total miss it yields
nothing and the caller surfaces an error. -/
theorem C1_cex_synthetic_skips_durable :
    (swHandle none [] apiUrl 5).prov = .synthetic
    ∧ (swHandle none [] apiUrl 5).body = synthPayload 5
    ∧ readCachedData apiUrl ⟨[], some [⟨.strCanon 9, .num 20, .num 50⟩]⟩
        = some (.localT, [⟨9, some 20, some 50⟩])
    ∧ normPayload (swHandle none [] apiUrl 5).body ≠ [⟨9, some 20, some 50⟩]
    ∧ readCachedData apiUrl ⟨[], none⟩ = none := by
  refine ⟨rfl, rfl, ?_, ?_, rfl⟩ <;> decide

/-- C1 (amended): the code realizes two separate fallback chains, not one
five-tier resolver, and each chain tries its own tiers in strict order,
short-circuiting on the first success.  The service-worker route handler:
a completed HTTP-ok live response is returned (and written through) with
its raw body independently of the cache contents; otherwise a present
exact-key entry; otherwise the first fuzzy-key entry (key containing the
logical-resource substring); otherwise the synthetic single-point payload —
with no durable-fallback tier.  The App chain `readCachedData`: a present
exact-key entry answers; otherwise the first fuzzy-key entry; otherwise the
secondary durable fallback; otherwise nothing (no synthetic tier; the
caller surfaces an error).  In both chains each case is fully determined by
the earlier tiers' outcomes, so no later tier is evaluated once an earlier
one has produced a result. -/
theorem C1_chain_tier_order (net : Option (List RawReading)) (c : SensorCache)
    (key : String) (now : Int) (st : SysState) :
    (∀ p, net = some p →
      swHandle net c key now = ⟨.live, p, putEntry key p c⟩
      ∧ ∀ c' : SensorCache, (swHandle net c' key now).body = p)
    ∧ (net = none → ∀ p, lookupC c key = some p →
        swHandle net c key now = ⟨.cacheExact, p, c⟩)
    ∧ (net = none → lookupC c key = none →
        ∀ e, matchFuzzy API_PATH c = some e →
        swHandle net c key now = ⟨.cacheFuzzy, e.2, c⟩)
    ∧ (net = none → lookupC c key = none → matchFuzzy API_PATH c = none →
        swHandle net c key now = ⟨.synthetic, synthPayload now, c⟩)
    ∧ (∀ p, lookupC st.cache key = some p →
        readCachedData key st = some (.exact, normPayload p))
    ∧ (lookupC st.cache key = none →
        ∀ e, matchFuzzy API_PATH st.cache = some e →
        readCachedData key st = some (.fuzzy, normPayload e.2))
    ∧ (lookupC st.cache key = none → matchFuzzy API_PATH st.cache = none →
        ∀ p, st.localStore = some p →
        readCachedData key st = some (.localT, normPayload p))
    ∧ (lookupC st.cache key = none → matchFuzzy API_PATH st.cache = none →
        st.localStore = none → readCachedData key st = none) := by
  refine ⟨fun p hp => ?_, fun hn p hx => ?_, fun hn hx e hf => ?_,
          fun hn hx hf => ?_, fun p hx => ?_, fun hx e hf => ?_,
          fun hx hf p hl => ?_, fun hx hf hl => ?_⟩
  · subst hp
    exact ⟨rfl, fun c' => rfl⟩
  · subst hn
    simp [swHandle, hx]
  · subst hn
    simp [swHandle, hx, hf]
  · subst hn
    simp [swHandle, hx, hf]
  · simp [readCachedData, hx]
  · simp [readCachedData, hx, hf]
  · simp [readCachedData, hx, hf, hl]
  · simp [readCachedData, hx, hf, hl]

/-- C1 (witness): the two-chain tier-order theorem applied at concrete
inputs — with the network failing and the cache empty, the service-worker
handler answers synthetic, and the App chain answers from the durable
fallback when it alone holds content. -/
theorem C1_chain_witness :
    swHandle none [] apiUrl 7 = ⟨.synthetic, synthPayload 7, []⟩
    ∧ readCachedData apiUrl ⟨[], some [⟨.strCanon 3, .num 20, .num 50⟩]⟩
        = some (.localT, normPayload [⟨.strCanon 3, .num 20, .num 50⟩]) := by
  constructor
  · exact (C1_chain_tier_order none [] apiUrl 7 ⟨[], none⟩).2.2.2.1 rfl rfl rfl
  · exact (C1_chain_tier_order none [] apiUrl 7
      ⟨[], some [⟨.strCanon 3, .num 20, .num 50⟩]⟩).2.2.2.2.2.2.1 rfl rfl _ rfl

/-- C3 (counterexample): the round-trip claim fails at the concrete live
payload `[{timestamp: "2023-11-14T22:13:20.000Z", temperature: "abc",
humidity: 44}]`.  `Number("abc")` is NaN, which passes the `!== null`
filter, so the live resolution publishes one reading; but the write-through
serializes NaN as `null` (`JSON.stringify`), so the subsequent cache-only
resolution re-normalizes the cached payload to the empty set — the
cache-exact payload does not equal the just-fetched normalized set. -/
theorem C3_cex_nan_dropped_on_reread :
    (resolve (some [⟨.strCanon 1700000000000, .strNaN, .num 44⟩]) apiUrl
      ⟨[], none⟩ 0).data = [⟨1700000000000, none, some 44⟩]
    ∧ (resolve none apiUrl
        (resolve (some [⟨.strCanon 1700000000000, .strNaN, .num 44⟩]) apiUrl
          ⟨[], none⟩ 0).st 1).prov = .cacheExact
    ∧ (resolve none apiUrl
        (resolve (some [⟨.strCanon 1700000000000, .strNaN, .num 44⟩]) apiUrl
          ⟨[], none⟩ 0).st 1).data = [] := by
  refine ⟨rfl, ?_, ?_⟩ <;> decide

/-- C3 (amended): after a live resolution whose normalized payload contains
no NaN temperature or humidity writes through, a subsequent cache-only
resolution (network failing) for the same resource key returns a
cache-exact result whose payload equals the just-fetched, normalized
reading set — normalization applied to the cached payload changes nothing.
(NaN values survive the normalization filter but serialize to `null` and
are dropped on the next read.) -/
theorem C3_roundtrip_after_live (raw : List RawReading) (st : SysState)
    (key : String) (now now2 : Int)
    (h : ∀ r ∈ normPayload raw, r.temperature.isSome ∧ r.humidity.isSome) :
    resolve none key (resolve (some raw) key st now).st now2
      = ⟨.cacheExact, (resolve (some raw) key st now).data,
         (resolve (some raw) key st now).st⟩ := by
  have hst : (resolve (some raw) key st now).st
      = ⟨putEntry key (rawOfReadings (normPayload raw)) st.cache,
         some (rawOfReadings (normPayload raw))⟩ := rfl
  have hdata : (resolve (some raw) key st now).data = normPayload raw := rfl
  rw [hst, hdata]
  have hx : lookupC (putEntry key (rawOfReadings (normPayload raw)) st.cache) key
      = some (rawOfReadings (normPayload raw)) := lookupC_putEntry_self _ _ _
  simp [resolve, readCachedData, hx, provOfSrc, normPayload_rawOfReadings _ h]

/-- C3 (witness): the amended round-trip theorem applied at a concrete
NaN-free live payload and an empty initial store. -/
theorem C3_witness :
    resolve none apiUrl
      (resolve (some [⟨.strCanon 9, .num 21, .num 44⟩]) apiUrl ⟨[], none⟩ 0).st 1
      = ⟨.cacheExact,
         (resolve (some [⟨.strCanon 9, .num 21, .num 44⟩]) apiUrl ⟨[], none⟩ 0).data,
         (resolve (some [⟨.strCanon 9, .num 21, .num 44⟩]) apiUrl ⟨[], none⟩ 0).st⟩ :=
  C3_roundtrip_after_live [⟨.strCanon 9, .num 21, .num 44⟩] ⟨[], none⟩ apiUrl 0 1
    (by decide)

/-- C4: version rotation deletes every store not named with the new active
version's tags: every store surviving `rotate v2` bears one of the three
v2-tagged names, and on a registry containing only v1-tagged stores the
rotation leaves zero stores, after which every `get` against any key of any
store (in particular a key that existed only in a v1 store) fails with
`NotFound`. -/
theorem C4_rotate_purges_inactive (reg : Registry) :
    (∀ e ∈ rotate "v2" reg, e.1 ∈ cacheNames "v2")
    ∧ ((∀ e ∈ reg, e.1 ∈ cacheNames "v1") →
        rotate "v2" reg = []
        ∧ ∀ n k, getReg (rotate "v2" reg) n k = none) := by
  constructor
  · intro e he
    have := List.of_mem_filter he
    simpa [List.elem_iff] using this
  · intro h
    have hnil : rotate "v2" reg = [] := by
      rw [rotate, List.filter_eq_nil_iff]
      intro e he
      have h1 := h e he
      simp only [cacheNames, List.mem_cons, List.not_mem_nil, or_false] at h1
      rcases h1 with h1 | h1 | h1 <;> rw [h1] <;> decide
    exact ⟨hnil, fun n k => by rw [hnil]; rfl⟩

/-- C4 (witness): the rotation theorem applied to a concrete registry of
two v1-tagged stores, one holding the primary resource key: after rotating
to v2 no store remains and the v1-only key is `NotFound`. -/
theorem C4_witness :
    rotate "v2" [("sensor-data-cache-v1", [(apiUrl, [])]), ("images-v1", [])] = []
    ∧ getReg (rotate "v2"
        [("sensor-data-cache-v1", [(apiUrl, [])]), ("images-v1", [])])
        "sensor-data-cache-v1" apiUrl = none := by
  have h := (C4_rotate_purges_inactive
    [("sensor-data-cache-v1", [(apiUrl, [])]), ("images-v1", [])]).2 (by decide)
  exact ⟨h.1, h.2 "sensor-data-cache-v1" apiUrl⟩

/-- C5: the fuzzy lookup succeeds whenever any stored key contains the
logical-resource substring, returning a stored entry whose key contains it
(the first such, by the `find` traversal), and it fails with `NotFound`
exactly when no stored key contains the substring. -/
theorem C5_matchFuzzy_finds (sub : String) (c : SensorCache) :
    (∀ e, matchFuzzy sub c = some e → e ∈ c ∧ strContains e.1 sub = true)
    ∧ (matchFuzzy sub c = none ↔ ∀ e ∈ c, strContains e.1 sub = false)
    ∧ ((∃ e ∈ c, strContains e.1 sub = true) →
        ∃ e, matchFuzzy sub c = some e ∧ strContains e.1 sub = true) := by
  refine ⟨fun e he => ?_, ?_, ?_⟩
  · rw [matchFuzzy] at he
    have hp := List.find?_some he
    exact ⟨List.mem_of_find?_eq_some he, hp⟩
  · rw [matchFuzzy, List.find?_eq_none]
    constructor
    · intro h e he
      have := h e he
      simpa using this
    · intro h e he
      simp [h e he]
  · intro hex
    have : (c.find? (fun e => strContains e.1 sub)).isSome := by
      rw [List.find?_isSome]
      exact hex
    rcases Option.isSome_iff_exists.mp this with ⟨e, he⟩
    have hp := List.find?_some he
    exact ⟨e, he, hp⟩

/-- C5 (witness): the fuzzy-lookup theorem applied to a cache holding one
entry stored under a full URL with a query string: the query for the
logical substring `/api/data/` returns that entry although the stored key
differs from the exact query key. -/
theorem C5_witness :
    (∃ e, matchFuzzy "/api/data/" [("https://host/api/data/?x=1", [])] = some e
       ∧ strContains e.1 "/api/data/" = true)
    ∧ "https://host/api/data/?x=1" ≠ "https://host/api/data/" := by
  constructor
  · exact (C5_matchFuzzy_finds "/api/data/" [("https://host/api/data/?x=1", [])]).2.2
      ⟨("https://host/api/data/?x=1", []), by decide⟩
  · decide

/-- C6: install-phase pre-population of the sensor-data store.  If an entry
already exists under the primary resource key, the store is left entirely
unchanged (not overwritten by the fallback); if none exists, the one
best-effort fetch decides the outcome: on success the live payload is put
under the key, and on failure the synthetic fallback series — which is
never an empty array — is put instead. -/
theorem C6_install_prepopulates (c : SensorCache)
    (net : Option (List RawReading)) (now : Int) :
    (∀ p, lookupC c apiUrl = some p → installSensorCache net now c = c)
    ∧ (lookupC c apiUrl = none → ∀ p, net = some p →
        installSensorCache net now c = putEntry apiUrl p c)
    ∧ (lookupC c apiUrl = none → net = none →
        installSensorCache net now c = putEntry apiUrl (fallbackPayload now) c
        ∧ fallbackPayload now ≠ []) := by
  refine ⟨fun p hp => ?_, fun hm p hp => ?_, fun hm hn => ⟨?_, by simp [fallbackPayload]⟩⟩
  · simp [installSensorCache, hp]
  · simp [installSensorCache, hm, hp]
  · simp [installSensorCache, hm, hn]

/-- C6 (witness): the install theorem applied at concrete inputs — an
empty store with a failing fetch receives the nonempty synthetic fallback,
and a store that already holds an entry under the key is unchanged. -/
theorem C6_witness :
    installSensorCache none 900000 [] = putEntry apiUrl (fallbackPayload 900000) []
    ∧ fallbackPayload 900000 ≠ []
    ∧ installSensorCache none 900000 [(apiUrl, [])] = [(apiUrl, [])] := by
  have h1 := (C6_install_prepopulates [] none 900000).2.2 rfl rfl
  have h2 := (C6_install_prepopulates [(apiUrl, [])] none 900000).1 [] (by decide)
  exact ⟨h1.1, h1.2, h2⟩

/-- C7 (counterexample): the claim "a rejected authenticated request
invalidates the token, so the next cycle performs a fresh login" fails at a
concrete two-cycle run.  Cycle 1 holds token "T" and its data fetch is
rejected (401): the token is still "T" afterwards.  Cycle 2 performs no
login exchange and sends its data request with the same stale token "T". -/
theorem C7_cex_stale_token_reused :
    (fetchDataOnline (.ok "T2") .notOk ⟨[], none⟩
      ⟨some "T", [], false, none⟩).ps.jwt = some "T"
    ∧ (fetchDataOnline (.ok "T2") (.ok []) ⟨[], none⟩
        (fetchDataOnline (.ok "T2") .notOk ⟨[], none⟩
          ⟨some "T", [], false, none⟩).ps).loginAttempted = false
    ∧ (fetchDataOnline (.ok "T2") (.ok []) ⟨[], none⟩
        (fetchDataOnline (.ok "T2") .notOk ⟨[], none⟩
          ⟨some "T", [], false, none⟩).ps).usedToken = some "T" := by
  refine ⟨?_, ?_, ?_⟩ <;> decide

/-- C7 (amended): a rejected authenticated data request does NOT invalidate
the held session token: the token survives the cycle unchanged, and every
subsequent online cycle skips the login exchange and reuses the same
token — a fresh login exchange happens only when no token is held. -/
theorem C7_token_survives_rejection (st st2 : SysState) (ps : PollState)
    (t : String) (lg lg2 : LoginR) (fr2 : FetchR) (h : ps.jwt = some t) :
    (fetchDataOnline lg .notOk st ps).ps.jwt = some t
    ∧ (fetchDataOnline lg2 fr2 st2
        (fetchDataOnline lg .notOk st ps).ps).loginAttempted = false
    ∧ (fetchDataOnline lg2 fr2 st2
        (fetchDataOnline lg .notOk st ps).ps).usedToken = some t := by
  have h1 : (fetchDataOnline lg .notOk st ps).ps.jwt = some t := by
    simp only [fetchDataOnline, h, dataPhase]
    rw [fallbackPub_jwt, h]
  have h2 : ∀ ps1 : PollState, ps1.jwt = some t →
      (fetchDataOnline lg2 fr2 st2 ps1).loginAttempted = false
      ∧ (fetchDataOnline lg2 fr2 st2 ps1).usedToken = some t := by
    intro ps1 hp
    simp only [fetchDataOnline, hp]
    cases fr2 <;> exact ⟨rfl, rfl⟩
  exact ⟨h1, (h2 _ h1).1, (h2 _ h1).2⟩

/-- C7 (witness): the amended theorem applied at a concrete state holding
token "tok" with an empty cache: the token survives a rejected cycle and
the following cycle reuses it without logging in. -/
theorem C7_witness :
    (fetchDataOnline .rejected .notOk ⟨[], none⟩
      ⟨some "tok", [], false, none⟩).ps.jwt = some "tok"
    ∧ (fetchDataOnline .rejected .threw ⟨[], none⟩
        (fetchDataOnline .rejected .notOk ⟨[], none⟩
          ⟨some "tok", [], false, none⟩).ps).loginAttempted = false
    ∧ (fetchDataOnline .rejected .threw ⟨[], none⟩
        (fetchDataOnline .rejected .notOk ⟨[], none⟩
          ⟨some "tok", [], false, none⟩).ps).usedToken = some "tok" :=
  C7_token_survives_rejection ⟨[], none⟩ ⟨[], none⟩ ⟨some "tok", [], false, none⟩
    "tok" .rejected .rejected .threw rfl

/-- C8 (counterexample): the claim "a live fetch that does not complete
within the bound falls through to the cache-exact tier rather than blocking
indefinitely" fails at a concrete state whose cache holds an exact entry
for the resource key: with the fetch never settling, resolution produces no
result at all (the handler awaits an unbounded `fetch`), instead of the
claimed cache-exact result. -/
theorem C8_cex_hang_blocks_resolution :
    resolveNet .hangs apiUrl
      ⟨[(apiUrl, [⟨.strCanon 0, .num 21, .num 44⟩])], none⟩ 5 = none
    ∧ lookupC [(apiUrl, [⟨.strCanon 0, .num 21, .num 44⟩])] apiUrl ≠ none := by
  exact ⟨rfl, by decide⟩

/-- C8 (amended): no timeout bounds the live-tier network call.  A fetch
that completes unsuccessfully (rejection, connection error or non-2xx) is
what falls through to the cache-exact tier; a fetch that never settles
yields no resolution at all — `resolveNet` produces no result exactly in
the hanging case. -/
theorem C8_completed_failure_falls_back (st : SysState) (key : String)
    (now : Int) (p : List RawReading) (h : lookupC st.cache key = some p) :
    resolveNet (.completes none) key st now
      = some ⟨.cacheExact, normPayload p, st⟩
    ∧ ∀ b : NetBehavior, resolveNet b key st now = none ↔ b = .hangs := by
  constructor
  · simp [resolveNet, resolve, readCachedData, h, provOfSrc]
  · intro b
    cases b <;> simp [resolveNet]

/-- C8 (witness): the amended theorem applied at a concrete state with an
exact cache entry: a completed failed fetch resolves cache-exact, and only
a hanging fetch produces no resolution. -/
theorem C8_witness :
    resolveNet (.completes none) apiUrl
      ⟨[(apiUrl, [⟨.strCanon 3, .num 20, .num 40⟩])], none⟩ 9
      = some ⟨.cacheExact, normPayload [⟨.strCanon 3, .num 20, .num 40⟩],
              ⟨[(apiUrl, [⟨.strCanon 3, .num 20, .num 40⟩])], none⟩⟩
    ∧ ∀ b : NetBehavior,
        resolveNet b apiUrl
          ⟨[(apiUrl, [⟨.strCanon 3, .num 20, .num 40⟩])], none⟩ 9 = none
        ↔ b = .hangs :=
  C8_completed_failure_falls_back
    ⟨[(apiUrl, [⟨.strCanon 3, .num 20, .num 40⟩])], none⟩ apiUrl 9
    [⟨.strCanon 3, .num 20, .num 40⟩] (by decide)

/-- C9 (counterexample): the claim "the login-failure error is only
surfaced when every cache tier is empty" fails at a concrete state in
which an exact cache entry exists but normalizes to the empty set while
the secondary durable fallback (`localStorage`) holds a nonempty reading
set: `readCachedData` short-circuits on the present-but-empty exact entry
without ever consulting `localStorage`, so the cycle surfaces
"Login failed" even though a cache tier has content. -/
theorem C9_cex_empty_exact_shadows_local :
    (fetchDataOnline .rejected .notOk
      ⟨[(apiUrl, [])], some [⟨.strCanon 1000, .num 21, .num 44⟩]⟩
      ⟨none, [], false, none⟩).ps.err = some "Login failed"
    ∧ (⟨[(apiUrl, [])], some [⟨.strCanon 1000, .num 21, .num 44⟩]⟩ :
        SysState).localStore = some [⟨.strCanon 1000, .num 21, .num 44⟩]
    ∧ normPayload [⟨.strCanon 1000, .num 21, .num 44⟩] ≠ [] := by
  refine ⟨?_, rfl, ?_⟩ <;> decide

/-- C9 (amended): when login fails during an online poll cycle, the
published result is the cached data and the error is cleared exactly when
the `readCachedData` chain — which stops at the first *present* cache
entry, even one whose payload normalizes to the empty set — yields a
nonempty reading set; otherwise the "Login failed" error is surfaced and
the previously published data is left in place.  (A present-but-empty
exact or fuzzy entry therefore shadows nonempty `localStorage` content.) -/
theorem C9_login_failure_cache_fallback (st : SysState) (ps : PollState)
    (fr : FetchR) (h : ps.jwt = none) :
    (∀ src d, readCachedData apiUrl st = some (src, d) → d ≠ [] →
      (fetchDataOnline .rejected fr st ps).ps = ⟨none, d, true, none⟩)
    ∧ ((readCachedData apiUrl st = none
        ∨ ∃ src, readCachedData apiUrl st = some (src, [])) →
      (fetchDataOnline .rejected fr st ps).ps.err = some "Login failed"
      ∧ (fetchDataOnline .rejected fr st ps).ps.data = ps.data) := by
  constructor
  · intro src d hrd hd
    simp only [fetchDataOnline, h, fallbackPub, hrd, hd, if_neg hd]
    simp
  · intro hmiss
    rcases hmiss with hm | ⟨src, hm⟩ <;>
      · simp only [fetchDataOnline, h, fallbackPub, hm]
        exact ⟨rfl, rfl⟩

/-- C9 (witness): the amended theorem applied at a concrete state where
the exact entry normalizes to one reading: the cycle publishes it as
cached data with no error. -/
theorem C9_witness :
    (fetchDataOnline .rejected .notOk
      ⟨[(apiUrl, [⟨.strCanon 1000, .num 21, .num 44⟩])], none⟩
      ⟨none, [], false, none⟩).ps
    = ⟨none, [⟨1000, some 21, some 44⟩], true, none⟩ :=
  (C9_login_failure_cache_fallback
    ⟨[(apiUrl, [⟨.strCanon 1000, .num 21, .num 44⟩])], none⟩
    ⟨none, [], false, none⟩ .notOk rfl).1
    .exact [⟨1000, some 21, some 44⟩] (by decide) (by decide)
